import Mathlib

/-!
# chat-rs — verification of spec claims against a shallow embedding

This file embeds, in Lean 4, the parts of the `chat-rs` repository that the
spec claims C1–C10 are about, and proves or refutes each claim.

Conventions of the embedding:

* Rust machine integers are `Nat`/`Int` with explicit `% 2^w` where overflow
  matters.
* Fallible Rust functions (`Result`) become `Except`.
* `HashMap` state is modelled as an association list (`List (κ × ν)`) with
  the usual insert-replaces / first-match-lookup semantics; `Vec` is
  `List`.
* Functions of external crates (the `uuid` string parser, the `chrono`
  RFC 3339 parser, the Unicode classifier `char::is_alphanumeric`, the
  password hasher) are passed as explicit parameters to the embedded
  repository functions, so every theorem quantifies over them.  Two
  external functions that the claims quantify over directly are embedded
  concretely: the `DefaultHasher` of the Rust standard library (SipHash-1-3
  with key (0,0)) and the `jsonwebtoken` encode/decode pipeline (HMAC
  idealised as a symbolic MAC; validation semantics — signature check,
  `exp` check with the crate's default 60-second leeway, required-claim
  set — transcribed from the crate).
-/

set_option autoImplicit false

namespace ChatRs

/-! ## Basic data: timestamps, UUIDs, identifier newtypes -/

/-- Instants (`chrono::DateTime<Utc>`) are modelled as an integer number of
seconds since the epoch; the claims never compute with sub-second
precision. -/
abbrev Timestamp := Int

/-- A `uuid::Uuid`: sixteen bytes.  The `bytes` list is meant to have
length 16 and entries below 256; no claim depends on that bound, so it is
not baked into the type. -/
structure Uuid where
  bytes : List Nat
deriving DecidableEq, Repr

/-- `ChannelId(pub Uuid)` from `chat-service/src/lib/domain/channel/models.rs`. -/
structure ChannelId where
  uuid : Uuid
deriving DecidableEq, Repr

/-- `UserId(pub Uuid)` from the domain user models. -/
structure UserId where
  uuid : Uuid
deriving DecidableEq, Repr

/-- `MessageId(pub Uuid)` from `chat-service/src/lib/domain/message/models.rs`. -/
structure MessageId where
  uuid : Uuid
deriving DecidableEq, Repr

/-! ## Association-list maps (the embedding of `HashMap`) -/

/-- `HashMap::insert`: replace the binding if the key is present, else append. -/
def mapInsert {κ ν : Type} [DecidableEq κ] : List (κ × ν) → κ → ν → List (κ × ν)
  | [], k, v => [(k, v)]
  | (k', v') :: rest, k, v =>
      if k' = k then (k, v) :: rest else (k', v') :: mapInsert rest k v

/-- `HashMap::get`: first binding for the key, if any. -/
def mapGet? {κ ν : Type} [DecidableEq κ] : List (κ × ν) → κ → Option ν
  | [], _ => none
  | (k', v') :: rest, k => if k' = k then some v' else mapGet? rest k

/-! ## SipHash-1-3 — the `DefaultHasher` of the Rust standard library

`TopicSharder::compute_shard_index` hashes the channel id with
`std::collections::hash_map::DefaultHasher`, which is SipHash-1-3 keyed
with the fixed key (0, 0) — `DefaultHasher::new` is documented to create
the same hasher on every call, in every process.  The derived `Hash` of
`ChannelId(Uuid([u8; 16]))` feeds exactly the sixteen raw bytes of the
UUID to the hasher.  The transcription below follows the SipHash
reference: one compression round per 8-byte little-endian word, a final
word carrying the input length in the top byte, and three finalisation
rounds. -/

/-- Truncation to a 64-bit machine word. -/
def wmask (x : Nat) : Nat := x % 18446744073709551616

/-- 64-bit left rotation. -/
def rotl64 (x b : Nat) : Nat := wmask ((x <<< b) ||| (x >>> (64 - b)))

/-- The four 64-bit state words of SipHash. -/
structure SipState where
  v0 : Nat
  v1 : Nat
  v2 : Nat
  v3 : Nat
deriving Repr, DecidableEq

/-- One SipRound. -/
def sipRound (s : SipState) : SipState :=
  let v0 := wmask (s.v0 + s.v1)
  let v1 := rotl64 s.v1 13
  let v1 := v1 ^^^ v0
  let v0 := rotl64 v0 32
  let v2 := wmask (s.v2 + s.v3)
  let v3 := rotl64 s.v3 16
  let v3 := v3 ^^^ v2
  let v0 := wmask (v0 + v3)
  let v3 := rotl64 v3 21
  let v3 := v3 ^^^ v0
  let v2 := wmask (v2 + v1)
  let v1 := rotl64 v1 17
  let v1 := v1 ^^^ v2
  let v2 := rotl64 v2 32
  ⟨v0, v1, v2, v3⟩

/-- Little-endian word value of a byte list (first byte least significant). -/
def leWord (bs : List Nat) : Nat := bs.foldr (fun b acc => b + 256 * acc) 0

/-- Absorb one message word: `v3 ^= m`, one SipRound, `v0 ^= m`. -/
def sipCompress (s : SipState) (m : Nat) : SipState :=
  let s1 := sipRound { s with v3 := s.v3 ^^^ m }
  { s1 with v0 := s1.v0 ^^^ m }

/-- Absorb the full 8-byte words of the message, then the final word whose
top byte is the total length mod 256. -/
def sipBlocks (totalLen : Nat) : SipState → List Nat → SipState
  | s, b0 :: b1 :: b2 :: b3 :: b4 :: b5 :: b6 :: b7 :: rest =>
      sipBlocks totalLen (sipCompress s (leWord [b0, b1, b2, b3, b4, b5, b6, b7])) rest
  | s, tail => sipCompress s (((totalLen % 256) <<< 56) + leWord tail)

/-- SipHash-1-3 of a byte string under a 128-bit key given as two words. -/
def sipHash13 (k0 k1 : Nat) (msg : List Nat) : Nat :=
  let s0 : SipState :=
    ⟨k0 ^^^ 0x736f6d6570736575, k1 ^^^ 0x646f72616e646f6d,
     k0 ^^^ 0x6c7967656e657261, k1 ^^^ 0x7465646279746573⟩
  let s := sipBlocks msg.length s0 msg
  let s := { s with v2 := s.v2 ^^^ 0xff }
  let s := sipRound (sipRound (sipRound s))
  ((s.v0 ^^^ s.v1) ^^^ s.v2) ^^^ s.v3

/-- `DefaultHasher::new()` + `write` + `finish()`: SipHash-1-3 with the fixed
key (0, 0). -/
def defaultHasherFinish (bytes : List Nat) : Nat := sipHash13 0 0 bytes

/-- `Hasher::write_usize(n)`: the eight little-endian bytes of `n`. -/
def usizeLeBytes (n : Nat) : List Nat :=
  [n % 256, n / 256 % 256, n / 256 ^ 2 % 256, n / 256 ^ 3 % 256,
   n / 256 ^ 4 % 256, n / 256 ^ 5 % 256, n / 256 ^ 6 % 256, n / 256 ^ 7 % 256]

/-- The 64-bit hash of a channel id as computed in
`TopicSharder::compute_shard_index`: the default hasher over the byte
stream the derived `Hash` of `ChannelId(Uuid([u8; 16]))` writes — the
slice `Hash` impl first writes the 8-byte length prefix
(`write_usize(16)`), then the sixteen UUID bytes. -/
def hash64 (c : ChannelId) : Nat :=
  defaultHasherFinish (usizeLeBytes 16 ++ c.uuid.bytes)

/-! ## Topic sharder (`chat-service/src/lib/outbound/events/topic.rs`) -/

/-- `ShardingError`; the payload of the first two variants is the offending
shard count, as in the source. -/
inductive ShardingError where
  | zeroShards (n : Nat)
  | notPowerOfTwo (n : Nat)
  | emptyTopicPrefix
deriving DecidableEq, Repr

/-- `TopicSharder { num_shards: u32, topic_prefix: String }`. -/
structure TopicSharder where
  num_shards : Nat
  topicPrefix : String
deriving DecidableEq, Repr

/-- Pop count of the low `fuel` bits (structural recursion on the bit count,
so the kernel can evaluate it). -/
def countOnesAux : Nat → Nat → Nat
  | 0, _ => 0
  | fuel + 1, n => n % 2 + countOnesAux fuel (n / 2)

/-- `u32::count_ones`: the number of one bits among the 32 bits of the word. -/
def countOnes (n : Nat) : Nat := countOnesAux 32 n

/-- `u32::is_power_of_two`, i.e. `count_ones() == 1`. -/
def u32IsPowerOfTwo (n : Nat) : Bool := countOnes n == 1

/-- `TopicSharder::new`: the three validation steps, in source order. -/
def TopicSharder.new (num_shards : Nat) (tp : String) : Except ShardingError TopicSharder :=
  if num_shards = 0 then .error (.zeroShards num_shards)
  else if ¬ u32IsPowerOfTwo num_shards then .error (.notPowerOfTwo num_shards)
  else if tp = "" then .error .emptyTopicPrefix
  else .ok ⟨num_shards, tp⟩

/-- `TopicSharder::compute_shard_index`: finish the hasher, truncate
`as u32`, and mask with `num_shards - 1`. -/
def TopicSharder.compute_shard_index (s : TopicSharder) (c : ChannelId) : Nat :=
  (hash64 c % 4294967296) &&& (s.num_shards - 1)

/-- `TopicSharder::get_shard_for_channel`: `format!("{}.{}", prefix, index)`. -/
def TopicSharder.get_shard_for_channel (s : TopicSharder) (c : ChannelId) : String :=
  s.topicPrefix ++ "." ++ toString (s.compute_shard_index c)

/-- `TopicSharder::get_all_shards`: `(0..num_shards).map(|i| format!("{}.{}", prefix, i))`. -/
def TopicSharder.get_all_shards (s : TopicSharder) : List String :=
  (List.range s.num_shards).map (fun i => s.topicPrefix ++ "." ++ toString i)

/-! ## Connection registry (`chat-service/src/lib/inbound/websocket/registry.rs`)

The `mpsc::UnboundedSender` handed to `add_connection` is modelled as an
opaque queue handle (`Nat`); a broadcast is modelled as the list of
`(queue handle, frame)` enqueue attempts it performs, in iteration order. -/

/-- `Connection { user_id, channel_id, sender }`. -/
structure Connection where
  user_id : UserId
  channel_id : ChannelId
  sender : Nat
deriving DecidableEq, Repr

/-- `ConnectionRegistry`: the two maps, `connections: HashMap<Uuid, Connection>`
and `channel_connections: HashMap<ChannelId, Vec<Uuid>>`. -/
structure ConnectionRegistry where
  connections : List (Uuid × Connection)
  channel_connections : List (ChannelId × List Uuid)
deriving DecidableEq, Repr

/-- `ConnectionRegistry::new`. -/
def ConnectionRegistry.new : ConnectionRegistry := ⟨[], []⟩

/-- `ConnectionRegistry::add_connection`: insert into `connections`
(`HashMap::insert`, replacing any previous binding), then
`channel_connections.entry(channel_id).or_insert_with(Vec::new).push(connection_id)` —
note the `push` is unconditional. -/
def ConnectionRegistry.add_connection (r : ConnectionRegistry) (connection_id : Uuid)
    (user_id : UserId) (channel_id : ChannelId) (sender : Nat) : ConnectionRegistry :=
  let connection : Connection := ⟨user_id, channel_id, sender⟩
  let conns := mapInsert r.connections connection_id connection
  let chconns :=
    match mapGet? r.channel_connections channel_id with
    | some lst => mapInsert r.channel_connections channel_id (lst ++ [connection_id])
    | none => mapInsert r.channel_connections channel_id [connection_id]
  ⟨conns, chconns⟩

/-- `ConnectionRegistry::get_channel_connection_count`:
`channel_connections.get(&channel_id).map(|c| c.len()).unwrap_or(0)`. -/
def ConnectionRegistry.get_channel_connection_count (r : ConnectionRegistry)
    (channel_id : ChannelId) : Nat :=
  match mapGet? r.channel_connections channel_id with
  | some conns => conns.length
  | none => 0

/-! ## WebSocket server frames (`chat-service/src/lib/inbound/websocket/messages.rs`)

`WsMessageId`/`WsUserId` are plain newtype wrappers around the domain ids
and are collapsed into them here.  The `serde_json` serialisation of the
frame into a text WebSocket message (which cannot fail for these types) is
elided: a broadcast carries the structured frame itself. -/

/-- `ServerMessage`; only the variants the embedded code paths construct. -/
inductive ServerMessage where
  | newMessage (id : MessageId) (user_id : UserId) (content : String) (timestamp : Timestamp)
  | connected (channel_id : ChannelId)
  | pong
  | errorMsg (message : String)
deriving DecidableEq, Repr

/-- `ConnectionRegistry::broadcast_to_channel`: look the channel up in
`channel_connections`; for each connection id in the `Vec`, look it up in
`connections` and enqueue the frame onto its sender.  The result is the
list of performed enqueues `(queue handle, frame)` in order. -/
def ConnectionRegistry.broadcast_to_channel (r : ConnectionRegistry)
    (channel_id : ChannelId) (message : ServerMessage) : List (Nat × ServerMessage) :=
  match mapGet? r.channel_connections channel_id with
  | none => []
  | some conn_ids =>
      conn_ids.filterMap (fun cid =>
        (mapGet? r.connections cid).map (fun conn => (conn.sender, message)))

/-! ## Kafka event consumer (`chat-service/src/lib/outbound/events/consumer.rs`) -/

/-- `MessageSentMessage`: the wire envelope of a `message_sent` event; all
ids travel as strings. -/
structure MessageSentMessage where
  event_id : String
  message_id : String
  channel_id : String
  user_id : String
  content : String
  timestamp : Timestamp
deriving DecidableEq, Repr

/-- `ChatEventMessage`: the envelope enum, tagged by `event_type`.  The
non-`message_sent` variants carry only the fields the consumer reads
(they are logged, never broadcast). -/
inductive ChatEventMessage where
  | messageSent (m : MessageSentMessage)
  | channelCreated (channel_id : String)
  | userJoinedChannel (channel_id user_id : String)
  | userLeftChannel (channel_id user_id : String)
deriving DecidableEq, Repr

/-- The id parsers the consumer calls (`ChannelId::from_string`,
`MessageId::from_string`, `UserId::from_string` wrap `uuid::Uuid::parse_str`,
an external crate function): passed as parameters so every theorem
quantifies over them. -/
structure IdParsers where
  parseChannelId : String → Except String ChannelId
  parseMessageId : String → Except String MessageId
  parseUserId : String → Except String UserId

/-- `KafkaEventConsumer::broadcast_message`: parse `channel_id` (on failure
log and return); ask the registry for the channel's connection count; if
zero, skip; otherwise parse `message_id` and `user_id` (on failure log and
return), build the `NewMessage` server frame from the event's fields and
hand it to `broadcast_to_channel`.  The result is the list of enqueues
performed (empty = no broadcast). -/
def KafkaEventConsumer.broadcast_message (p : IdParsers) (registry : ConnectionRegistry)
    (event : MessageSentMessage) : List (Nat × ServerMessage) :=
  match p.parseChannelId event.channel_id with
  | .error _ => []
  | .ok channel_id =>
    let conn_count := registry.get_channel_connection_count channel_id
    if conn_count = 0 then []
    else
      match p.parseMessageId event.message_id with
      | .error _ => []
      | .ok message_id =>
        match p.parseUserId event.user_id with
        | .error _ => []
        | .ok user_id =>
          let server_message :=
            ServerMessage.newMessage message_id user_id event.content event.timestamp
          registry.broadcast_to_channel channel_id server_message

/-- `KafkaEventConsumer::handle_event`: dispatch on the envelope tag;
`MessageSent` is broadcast, everything else only logged. -/
def KafkaEventConsumer.handle_event (p : IdParsers) (registry : ConnectionRegistry)
    (event : ChatEventMessage) : List (Nat × ServerMessage) :=
  match event with
  | .messageSent m => KafkaEventConsumer.broadcast_message p registry m
  | .channelCreated _ => []
  | .userJoinedChannel _ _ => []
  | .userLeftChannel _ _ => []

/-! ## Channel and message domain model (chat-service) -/

/-- `ChannelName` (1–100 bytes, validated at construction; the send path
treats it opaquely). -/
structure ChannelName where
  name : String
deriving DecidableEq, Repr

/-- `PublicChannel`. -/
structure PublicChannel where
  id : ChannelId
  name : ChannelName
  description : Option String
  created_by : UserId
  created_at : Timestamp
deriving DecidableEq, Repr

/-- `PrivateChannel`. -/
structure PrivateChannel where
  id : ChannelId
  name : ChannelName
  description : Option String
  created_by : UserId
  created_at : Timestamp
  members : List UserId
deriving DecidableEq, Repr

/-- `DirectChannel`. -/
structure DirectChannel where
  id : ChannelId
  created_by : UserId
  created_at : Timestamp
  participants : UserId × UserId
deriving DecidableEq, Repr

/-- `Channel`: the tagged variant. -/
inductive Channel where
  | publicCh (c : PublicChannel)
  | privateCh (c : PrivateChannel)
  | directCh (c : DirectChannel)
deriving DecidableEq, Repr

/-- `MessageContent` (1–4000 bytes, validated at construction; the send
path treats it opaquely). -/
structure MessageContent where
  content : String
deriving DecidableEq, Repr

/-- `Message`. -/
structure Message where
  id : MessageId
  channel_id : ChannelId
  user_id : UserId
  content : MessageContent
  timestamp : Timestamp
deriving DecidableEq, Repr

/-- `MessageError` (`chat-service/src/lib/domain/message/errors.rs`).  The
`#[from]` wrapper variants for id/content validation errors carry their
message as a string here. -/
inductive MessageError where
  | invalidMessageId (s : String)
  | invalidContent (s : String)
  | invalidChannelId (s : String)
  | invalidUserId (s : String)
  | notFound (id : MessageId)
  | channelNotFound (id : ChannelId)
  | userNotFound (id : UserId)
  | databaseError (s : String)
  | unknown (s : String)
deriving DecidableEq, Repr

/-! ## Message service (`chat-service/src/lib/domain/message/service.rs`)

The repositories and the event publisher are ports implemented by external
adapters (Postgres/Cassandra/Kafka); their outcomes for the one call the
send path makes to each are injected through `SendDeps`, and the message
store is threaded explicitly as the list of persisted messages. -/

/-- Outcomes of the three port calls `send_message` makes:
`channel_repository.find_by_id` (error stringified by the service),
`message_repository.create` (`none` = success, echoing the message, as the
adapters do), `event_publisher.publish_message_sent`. -/
structure SendDeps where
  findByIdResult : Except String (Option Channel)
  createFails : Option MessageError
  publishResult : Except String Unit

/-- `MessageService::send_message`: verify the channel exists
(absent → `ChannelNotFound`, lookup error → `DatabaseError`), construct the
message with a fresh time-based id (`newId`) and the current instant
(`now`), persist it (the durability commit point), then publish the event —
a publish failure is only logged and does not change the result.  Returns
the result paired with the message store after the call. -/
def MessageService.send_message (deps : SendDeps) (store : List Message)
    (channel_id : ChannelId) (user_id : UserId) (content : MessageContent)
    (newId : MessageId) (now : Timestamp) : Except MessageError Message × List Message :=
  match deps.findByIdResult with
  | .error e => (.error (.databaseError e), store)
  | .ok none => (.error (.channelNotFound channel_id), store)
  | .ok (some _) =>
    let message : Message := ⟨newId, channel_id, user_id, content, now⟩
    match deps.createFails with
    | some e => (.error e, store)
    | none =>
      -- `if let Err(e) = publish … { tracing::error!(…) }`: the publish
      -- outcome (`deps.publishResult`) never reaches the return value.
      (.ok message, store ++ [message])

/-! ## Username (`user-service/src/lib/domain/user/models.rs`; the
chat-service copy in `chat-service/src/lib/domain/user/models.rs` is
line-for-line identical)

Two points of the source matter for the claims: the length check uses
`String::len`, the **UTF-8 byte length**, not a code-point count; and the
character check calls `char::is_alphanumeric`, the Unicode classifier of
the Rust standard library.  The classifier is external code and is passed
as the parameter `isAlnum`; `usernameCharTable` below transcribes it for
the code points this development evaluates it at. -/

/-- `UsernameError`. -/
inductive UsernameError where
  | tooShort (min actual : Nat)
  | tooLong (max actual : Nat)
  | invalidCharacters
deriving DecidableEq, Repr

/-- The `thiserror` display strings of `UsernameError`. -/
def UsernameError.display : UsernameError → String
  | .tooShort min actual =>
      "Username too short: minimum " ++ toString min ++ " characters, got " ++ toString actual
  | .tooLong max actual =>
      "Username too long: maximum " ++ toString max ++ " characters, got " ++ toString actual
  | .invalidCharacters =>
      "Username contains invalid characters (only alphanumeric, underscore, and hyphen allowed)"

/-- `Username(String)`. -/
structure Username where
  value : String
deriving DecidableEq, Repr

/-- `Username::MIN_LENGTH`. -/
def usernameMinLength : Nat := 3

/-- `Username::MAX_LENGTH`. -/
def usernameMaxLength : Nat := 32

/-- `Username::with_valid_length`: `username.len()` is the UTF-8 byte
length of the string. -/
def Username.with_valid_length (username : String) : Except UsernameError String :=
  let length := username.utf8ByteSize
  if length < usernameMinLength then .error (.tooShort usernameMinLength length)
  else if length > usernameMaxLength then .error (.tooLong usernameMaxLength length)
  else .ok username

/-- `Username::with_valid_chars`:
`username.chars().all(|c| c.is_alphanumeric() || c == '_' || c == '-')`. -/
def Username.with_valid_chars (isAlnum : Char → Bool) (username : String) :
    Except UsernameError String :=
  if username.toList.all (fun c => isAlnum c || c = '_' || c = '-') then .ok username
  else .error .invalidCharacters

/-- `Username::new`: length check, then character check. -/
def Username.new (isAlnum : Char → Bool) (username : String) :
    Except UsernameError Username := do
  let u ← Username.with_valid_length username
  let u ← Username.with_valid_chars isAlnum u
  return ⟨u⟩

/-- `char::is_alphanumeric` of the Rust standard library (Unicode
`Alphabetic` or general category N), transcribed from the Unicode tables
for the code points below U+0100; the development never evaluates it at a
higher code point (it returns `false` there).  In the Latin-1 supplement
the alphanumeric code points are ª µ º, À–Ö, Ø–ö, ø–ÿ plus the numeric
² ³ ¹ ¼ ½ ¾. -/
def usernameCharTable (c : Char) : Bool :=
  let n := c.toNat
  if n < 0x80 then
    (0x30 ≤ n && n ≤ 0x39) || (0x41 ≤ n && n ≤ 0x5a) || (0x61 ≤ n && n ≤ 0x7a)
  else if n ≤ 0xff then
    n == 0xaa || n == 0xb5 || n == 0xba ||
    (0xc0 ≤ n && n ≤ 0xd6) || (0xd8 ≤ n && n ≤ 0xf6) || (0xf8 ≤ n && n ≤ 0xff) ||
    n == 0xb2 || n == 0xb3 || n == 0xb9 || (0xbc ≤ n && n ≤ 0xbe)
  else
    false

/-! ## User replica consumer (`chat-service/src/lib/outbound/events/user_consumer.rs`) -/

/-- The chat-service `User` domain model — the replica read-model row
(`chat-service/src/lib/domain/user/models.rs`). -/
structure ReplicaUser where
  id : UserId
  username : Username
  created_at : Timestamp
  updated_at : Timestamp
deriving DecidableEq, Repr

/-- `UserUpdatedEvent` (chat-service domain user events); ids travel as
strings. -/
structure UserUpdatedEvent where
  event_id : String
  user_id : String
  username : String
  updated_at : Timestamp
deriving DecidableEq, Repr

/-- `UserEventsConsumer::handle_user_updated`: parse the user id
(`UserId::from_string`, passed as the parameter `parseUserId`), read the
existing replica row to preserve `created_at` (absent row → use `now`,
with a warning log), validate the username, and upsert.  The replica
repository port is modelled as the key-value store it implements: `get` is
the map lookup and `upsert` the map insert, keyed by user id. -/
def UserEventsConsumer.handle_user_updated
    (parseUserId : String → Except String UserId) (isAlnum : Char → Bool)
    (now : Timestamp) (repo : List (UserId × ReplicaUser)) (event : UserUpdatedEvent) :
    Except String (List (UserId × ReplicaUser)) :=
  match parseUserId event.user_id with
  | .error e => .error ("Invalid user_id in UserUpdated event: " ++ e)
  | .ok user_id =>
    let existing_user := mapGet? repo user_id
    let created_at :=
      match existing_user with
      | some user => user.created_at
      | none => now
    match Username.new isAlnum event.username with
    | .error e => .error ("Invalid username in UserUpdated event: " ++ UsernameError.display e)
    | .ok username =>
      let user : ReplicaUser := ⟨user_id, username, created_at, event.updated_at⟩
      .ok (mapInsert repo user_id user)

/-! ## JWT layer (`auth/src/jwt/claims.rs`, `auth/src/jwt/handler.rs`)

The `jsonwebtoken` crate is external; it is embedded symbolically: a token
carries its claims and an idealised MAC — the pair (signing key, signed
claims) — standing for HMAC-SHA256 over the serialised header+payload
(serde round-tripping of `Claims` is the identity).  The crate's
*validation* semantics are transcribed: signature check first, then the
required-claim set, then the `exp` check `exp < now - leeway` with the
crate's default `leeway` of 60 seconds, which `JwtHandler` never
overrides.  What `JwtHandler` itself configures — clearing
`required_spec_claims`, `insecure_disable_signature_validation` for
`decode_unverified`, the error mapping — is embedded from the source. -/

/-- `Claims` (`auth/src/jwt/claims.rs`); `extra` is the flattened custom
field map, with string values (the only value the services store there is
the username). -/
structure Claims where
  sub : Option String
  exp : Option Int
  iat : Option Int
  nbf : Option Int
  iss : Option String
  aud : Option String
  jti : Option String
  extra : List (String × String)
deriving DecidableEq, Repr

/-- `Claims::new` / `Claims::default`. -/
def Claims.empty : Claims := ⟨none, none, none, none, none, none, none, []⟩

/-- `Claims::for_user`: `sub = user_id`, `exp = now + hours`,
`iat = now`, `extra.username = username`. -/
def Claims.for_user (user_id : String) (username : String)
    (expiration_hours : Int) (now : Int) : Claims :=
  { Claims.empty with
      sub := some user_id
      exp := some (now + expiration_hours * 3600)
      iat := some now
      extra := [("username", username)] }

/-- A signed token: the claims plus the symbolic MAC (key, signed claims). -/
structure Jwt where
  claims : Claims
  sig : List Nat × Claims
deriving DecidableEq, Repr

/-- The error kinds of the `jsonwebtoken` crate that the embedded paths
can produce. -/
inductive JwtLibError where
  | invalidSignature
  | expiredSignature
  | missingRequiredClaim (name : String)
deriving DecidableEq, Repr

/-- `ErrorKind` display, as matched by `JwtHandler::decode`'s
`e.to_string().contains("ExpiredSignature")`. -/
def JwtLibError.display : JwtLibError → String
  | .invalidSignature => "InvalidSignature"
  | .expiredSignature => "ExpiredSignature"
  | .missingRequiredClaim n => "Missing required claim: " ++ n

/-- The fields of `jsonwebtoken::Validation` the embedded paths read.
`Validation::new(alg)` defaults: `leeway = 60`, `validate_exp = true`,
signature validation on, `required_spec_claims = {"exp"}`. -/
structure Validation where
  leeway : Int
  validate_exp : Bool
  validate_signature : Bool
  required_spec_claims : List String
deriving DecidableEq, Repr

/-- `Validation::new(Algorithm::HS256)`. -/
def Validation.new : Validation :=
  { leeway := 60, validate_exp := true, validate_signature := true,
    required_spec_claims := ["exp"] }

/-- `jsonwebtoken::encode`: sign the claims under the secret.  (In the
symbolic model signing is total; the `EncodingFailed` arm of the handler
is unreachable.) -/
def jsonwebtokenEncode (secret : List Nat) (claims : Claims) : Jwt :=
  ⟨claims, (secret, claims)⟩

/-- `jsonwebtoken::decode`: verify the signature (unless disabled), check
the required claim set, then validate `exp < now - leeway`. -/
def jsonwebtokenDecode (v : Validation) (secret : List Nat) (now : Int) (token : Jwt) :
    Except JwtLibError Claims :=
  if v.validate_signature ∧ token.sig ≠ (secret, token.claims) then
    .error .invalidSignature
  else if v.required_spec_claims.contains "exp" ∧ token.claims.exp = none then
    .error (.missingRequiredClaim "exp")
  else
    match token.claims.exp with
    | some e =>
        if v.validate_exp ∧ e < now - v.leeway then .error .expiredSignature
        else .ok token.claims
    | none => .ok token.claims

/-- `JwtError` (`auth/src/jwt/errors.rs`). -/
inductive JwtError where
  | invalidToken (s : String)
  | tokenExpired
  | decodingFailed (s : String)
  | encodingFailed (s : String)
deriving DecidableEq, Repr

/-- `JwtHandler::encode`. -/
def JwtHandler.encode (secret : List Nat) (claims : Claims) : Jwt :=
  jsonwebtokenEncode secret claims

/-- `JwtHandler::decode`: `Validation::new(HS256)` with
`required_spec_claims.clear()` (tokens without `exp` are allowed), then
map an `ExpiredSignature` error to `TokenExpired` and every other error to
`DecodingFailed`. -/
def JwtHandler.decode (secret : List Nat) (now : Int) (token : Jwt) :
    Except JwtError Claims :=
  let validation := { Validation.new with required_spec_claims := [] }
  match jsonwebtokenDecode validation secret now token with
  | .error e =>
      if e = .expiredSignature then .error .tokenExpired
      else .error (.decodingFailed (JwtLibError.display e))
  | .ok claims => .ok claims

/-- `JwtHandler::decode_unverified`:
`insecure_disable_signature_validation()` plus the cleared required-claim
set; every error maps to `DecodingFailed`. -/
def JwtHandler.decode_unverified (secret : List Nat) (now : Int) (token : Jwt) :
    Except JwtError Claims :=
  let validation :=
    { Validation.new with validate_signature := false, required_spec_claims := [] }
  match jsonwebtokenDecode validation secret now token with
  | .error e => .error (.decodingFailed (JwtLibError.display e))
  | .ok claims => .ok claims

/-! ## UUID display (the canonical hyphenated form used by `Display` for
the id newtypes, e.g. in `Claims::for_user(user.id, …)` and error
messages). -/

/-- Lower-case hex digit. -/
def hexDigitChar (n : Nat) : Char :=
  if n < 10 then Char.ofNat (0x30 + n) else Char.ofNat (0x61 + (n - 10))

/-- Two hex digits of a byte. -/
def byteToHex (b : Nat) : List Char := [hexDigitChar (b / 16), hexDigitChar (b % 16)]

/-- Hex string of a byte list. -/
def hexOfBytes (bs : List Nat) : String :=
  ⟨bs.foldr (fun b acc => byteToHex b ++ acc) []⟩

/-- The canonical 8-4-4-4-12 hyphenated form of a UUID. -/
def Uuid.toCanonicalString (u : Uuid) : String :=
  hexOfBytes (u.bytes.take 4) ++ "-" ++ hexOfBytes ((u.bytes.drop 4).take 2) ++ "-" ++
  hexOfBytes ((u.bytes.drop 6).take 2) ++ "-" ++ hexOfBytes ((u.bytes.drop 8).take 2) ++ "-" ++
  hexOfBytes (u.bytes.drop 10)

/-! ## Authenticator (`auth/src/authenticator.rs`) -/

/-- `AuthenticationError`. -/
inductive AuthenticationError where
  | invalidCredentials
  | passwordError (s : String)
  | jwtError (s : String)
deriving DecidableEq, Repr

/-- `Authenticator::authenticate`: verify the password against the stored
hash (the argon2 `PasswordHasher::verify` is external and passed as the
parameter `verify`; a hasher error propagates as `PasswordError`), fail
with `InvalidCredentials` when it does not match, otherwise encode the
claims into a token.  (Encoding is total in the symbolic JWT model, so the
`JwtError` arm is unreachable.) -/
def Authenticator.authenticate (verify : String → String → Except String Bool)
    (secret : List Nat) (password stored_hash : String) (claims : Claims) :
    Except AuthenticationError Jwt :=
  match verify password stored_hash with
  | .error e => .error (.passwordError e)
  | .ok false => .error .invalidCredentials
  | .ok true => .ok (JwtHandler.encode secret claims)

/-! ## User-service authenticate handler
(`user-service/src/lib/inbound/http/handlers/authenticate.rs`) -/

/-- `EmailAddress` (validated at construction; the authenticate path
treats it opaquely). -/
structure EmailAddress where
  value : String
deriving DecidableEq, Repr

/-- The user-service `User` record. -/
structure IsUser where
  id : UserId
  username : Username
  email : EmailAddress
  password_hash : String
  created_at : Timestamp
deriving DecidableEq, Repr

/-- `UserError` (`user-service/src/lib/domain/user/errors.rs`); `#[from]`
wrapper variants carry their inner error's display string. -/
inductive UserError where
  | invalidUserId (s : String)
  | invalidUsername (s : String)
  | invalidEmail (s : String)
  | password (s : String)
  | notFound (s : String)
  | notFoundByUsername (s : String)
  | usernameAlreadyExists (s : String)
  | emailAlreadyExists (s : String)
  | invalidCredentials
  | databaseError (s : String)
  | unknown (s : String)
deriving DecidableEq, Repr

/-- The `thiserror` display strings of `UserError`. -/
def UserError.display : UserError → String
  | .invalidUserId s => "Invalid user ID: " ++ s
  | .invalidUsername s => "Invalid username: " ++ s
  | .invalidEmail s => "Invalid email: " ++ s
  | .password s => "Password error: " ++ s
  | .notFound s => "User not found: " ++ s
  | .notFoundByUsername s => "User not found with username: " ++ s
  | .usernameAlreadyExists s => "Username already exists: " ++ s
  | .emailAlreadyExists s => "Email already exists: " ++ s
  | .invalidCredentials => "Invalid credentials"
  | .databaseError s => "Database error: " ++ s
  | .unknown s => "Unknown error: " ++ s

/-- `ApiError` of the user service
(`user-service/src/lib/inbound/http/handlers.rs`); the chat service has
its own, different `ApiError` enum, embedded below as `CsApiError`. -/
inductive ApiError where
  | internalServerError (msg : String)
  | unprocessableEntity (msg : String)
  | badRequest (msg : String)
  | notFound (msg : String)
  | conflict (msg : String)
  | unauthorized (msg : String)
deriving DecidableEq, Repr

/-- The status code `IntoResponse for ApiError` pairs with each variant. -/
def ApiError.status_code : ApiError → Nat
  | .internalServerError _ => 500
  | .unprocessableEntity _ => 422
  | .badRequest _ => 400
  | .notFound _ => 404
  | .conflict _ => 409
  | .unauthorized _ => 401

/-- `From<UserError> for ApiError` (user-service `handlers.rs`). -/
def ApiError.fromUserError (err : UserError) : ApiError :=
  match err with
  | .notFound _ | .notFoundByUsername _ => .notFound (UserError.display err)
  | .usernameAlreadyExists _ | .emailAlreadyExists _ => .conflict (UserError.display err)
  | .invalidCredentials => .unauthorized (UserError.display err)
  | .invalidUsername _ | .invalidEmail _ | .invalidUserId _ =>
      .unprocessableEntity (UserError.display err)
  | .password _ | .databaseError _ | .unknown _ =>
      .internalServerError (UserError.display err)

/-- `AuthenticateRequestBody`. -/
structure AuthenticateRequestBody where
  username : String
  password : String
deriving DecidableEq, Repr

/-- The `authenticate` handler: validate the username (failure →
`Unauthorized "Invalid credentials"`), look the user up
(`NotFoundByUsername` → the same generic unauthorized error, other
`UserError`s → `ApiError::from`), build the JWT claims, then verify the
password and mint the token via `Authenticator::authenticate`
(`InvalidCredentials` → the same generic unauthorized error).  The user
store behind `get_user_by_username` and the password verifier are external
and injected as `lookup` and `verify`. -/
def authenticateHandler (isAlnum : Char → Bool)
    (lookup : Username → Except UserError IsUser)
    (verify : String → String → Except String Bool)
    (secret : List Nat) (now jwt_expiration_hours : Int)
    (body : AuthenticateRequestBody) : Except ApiError (IsUser × Jwt) :=
  match Username.new isAlnum body.username with
  | .error _ => .error (.unauthorized "Invalid credentials")
  | .ok username =>
    match lookup username with
    | .error (UserError.notFoundByUsername _) => .error (.unauthorized "Invalid credentials")
    | .error e => .error (ApiError.fromUserError e)
    | .ok user =>
      let claims := Claims.for_user (Uuid.toCanonicalString user.id.uuid)
        user.username.value jwt_expiration_hours now
      match Authenticator.authenticate verify secret body.password user.password_hash claims with
      | .error .invalidCredentials => .error (.unauthorized "Invalid credentials")
      | .error (.passwordError e) =>
          .error (.internalServerError ("Password verification failed: " ++ e))
      | .error (.jwtError e) =>
          .error (.internalServerError ("Token generation failed: " ++ e))
      | .ok token => .ok (user, token)

/-! ## GET /api/channels/:id/messages handler
(`chat-service/src/lib/inbound/http/handlers/messages/get_channel_messages.rs`) -/

/-- `MessageQuery { limit: Option<i32>, before: Option<String> }`. -/
structure MessageQuery where
  limit : Option Int
  before : Option String
deriving DecidableEq, Repr

/-- `ApiError` of the chat service
(`chat-service/src/lib/inbound/http/handlers.rs`): five variants. -/
inductive CsApiError where
  | badRequest (msg : String)
  | notFound (msg : String)
  | unprocessableEntity (msg : String)
  | internalServerError (msg : String)
  | serviceUnavailable (msg : String)
deriving DecidableEq, Repr

/-- The status code `IntoResponse for ApiError` (chat service) pairs with
each variant. -/
def CsApiError.status_code : CsApiError → Nat
  | .badRequest _ => 400
  | .notFound _ => 404
  | .unprocessableEntity _ => 422
  | .internalServerError _ => 500
  | .serviceUnavailable _ => 503

/-- `From<MessageError> for ApiError` (chat-service `handlers.rs`). -/
def CsApiError.fromMessageError (err : MessageError) : CsApiError :=
  match err with
  | .notFound id => .notFound ("Message not found: " ++ Uuid.toCanonicalString id.uuid)
  | .channelNotFound id => .notFound ("Channel not found: " ++ Uuid.toCanonicalString id.uuid)
  | .userNotFound id => .notFound ("User not found: " ++ Uuid.toCanonicalString id.uuid)
  | .invalidMessageId s => .unprocessableEntity ("Invalid message ID: " ++ s)
  | .invalidContent s => .unprocessableEntity ("Invalid message content: " ++ s)
  | .invalidChannelId s => .unprocessableEntity ("Invalid channel ID: " ++ s)
  | .invalidUserId s => .unprocessableEntity ("Invalid user ID: " ++ s)
  | .databaseError msg => .internalServerError msg
  | .unknown msg => .internalServerError msg

/-- The `get_channel_messages` handler: parse the path channel id
(failure → 400 `BadRequest`), default the limit to 50, parse `before` with
`DateTime::parse_from_rfc3339(…).ok()` — **a malformed value becomes
`None`** — and call the message service.  The external `chrono` parser and
the `uuid` parser are the parameters `parseRfc3339` and `parseChannelId`;
the message service behind the port is the parameter `svc`.  (The
per-item mapping of the result into `MessageResponseData` is a pure map
and is elided.) -/
def getChannelMessagesHandler
    (parseChannelId : String → Except String ChannelId)
    (parseRfc3339 : String → Option Timestamp)
    (svc : ChannelId → Int → Option Timestamp → Except MessageError (List Message))
    (channel_id : String) (params : MessageQuery) : Except CsApiError (List Message) :=
  match parseChannelId channel_id with
  | .error e => .error (.badRequest e)
  | .ok cid =>
    let limit := (params.limit).getD 50
    let before := (params.before).bind parseRfc3339
    match svc cid limit before with
    | .error e => .error (CsApiError.fromMessageError e)
    | .ok messages => .ok messages

/-! ## Concrete sample values and sample instantiations of the external
function parameters, used by the witness theorems -/

/-- The all-zero UUID. -/
def sampleUuid : Uuid := ⟨List.replicate 16 0⟩

/-- Its canonical textual form. -/
def sampleUuidString : String := "00000000-0000-0000-0000-000000000000"

def sampleChannelId : ChannelId := ⟨sampleUuid⟩

def sampleUserId : UserId := ⟨sampleUuid⟩

def sampleMessageId : MessageId := ⟨sampleUuid⟩

/-- A sample UUID parser, defined at the one string the witnesses use
(where it agrees with `uuid::Uuid::parse_str`). -/
def sampleParseUuid (s : String) : Except String Uuid :=
  if s = sampleUuidString then .ok sampleUuid
  else .error ("Invalid UUID format: " ++ s)

def sampleIdParsers : IdParsers :=
  ⟨fun s => (sampleParseUuid s).map ChannelId.mk,
   fun s => (sampleParseUuid s).map MessageId.mk,
   fun s => (sampleParseUuid s).map UserId.mk⟩

def sampleParseUserId (s : String) : Except String UserId :=
  (sampleParseUuid s).map UserId.mk

/-- A sample RFC 3339 parser, defined at the one timestamp the witnesses
use (where it agrees with `chrono::DateTime::parse_from_rfc3339`). -/
def sampleRfc3339 (s : String) : Option Timestamp :=
  if s = "2024-01-01T00:00:00Z" then some 1704067200 else none

/-- A registry holding one connection, on queue 7, for the sample channel. -/
def sampleRegistry1 : ConnectionRegistry :=
  ConnectionRegistry.new.add_connection sampleUuid sampleUserId sampleChannelId 7

/-- A `message_sent` envelope whose ids all parse under `sampleParseUuid`. -/
def sampleEvent : MessageSentMessage :=
  ⟨"evt-1", sampleUuidString, sampleUuidString, sampleUuidString, "hi", 0⟩

/-- A direct channel, for the send-path witness. -/
def sampleChannel : Channel :=
  .directCh ⟨sampleChannelId, sampleUserId, 0, (sampleUserId, sampleUserId)⟩

/-- A `user_updated` envelope whose user id parses under `sampleParseUuid`. -/
def sampleUserUpdatedEvent : UserUpdatedEvent :=
  ⟨"evt-2", sampleUuidString, "alice2", 200⟩

/-- Claims with `exp = 999` (and nothing else). -/
def sampleClaimsExp999 : Claims := { Claims.empty with exp := some 999 }

/-- Claims with `exp = 100` (and nothing else). -/
def sampleClaimsExp100 : Claims := { Claims.empty with exp := some 100 }

/-- A sample user record of the identity service. -/
def sampleIsUser : IsUser :=
  ⟨sampleUserId, ⟨"alice"⟩, ⟨"alice@example.com"⟩, "stored-hash", 0⟩

/-- A sample user store: only `alice` exists. -/
def sampleLookup (un : Username) : Except UserError IsUser :=
  if un.value = "alice" then .ok sampleIsUser
  else .error (.notFoundByUsername un.value)

/-- A sample password verifier: matches when the password equals the
stored hash. -/
def sampleVerify (password stored_hash : String) : Except String Bool :=
  .ok (password == stored_hash)

/-- A sample message service that returns the empty page. -/
def sampleMessageSvc : ChannelId → Int → Option Timestamp → Except MessageError (List Message) :=
  fun _ _ _ => .ok []

/-! # Theorems

First the helper lemmas about the association-list maps and bit masking,
then one theorem per claim (with its witness or counterexample). -/

theorem mapGet?_mapInsert_self {κ ν : Type} [DecidableEq κ]
    (l : List (κ × ν)) (k : κ) (v : ν) : mapGet? (mapInsert l k v) k = some v := by
  induction l with
  | nil => simp [mapInsert, mapGet?]
  | cons hd tl ih =>
      obtain ⟨k', v'⟩ := hd
      by_cases h : k' = k <;> simp [mapInsert, mapGet?, h, ih]

theorem mapGet?_mapInsert_ne {κ ν : Type} [DecidableEq κ]
    (l : List (κ × ν)) (k k' : κ) (v : ν) (h : k' ≠ k) :
    mapGet? (mapInsert l k v) k' = mapGet? l k' := by
  have hkk : ¬ k = k' := fun e => h e.symm
  induction l with
  | nil => simp [mapInsert, mapGet?, hkk]
  | cons hd tl ih =>
      obtain ⟨k₀, v₀⟩ := hd
      by_cases hk : k₀ = k
      · subst hk
        simp [mapInsert, mapGet?, hkk]
      · by_cases hk' : k₀ = k' <;> simp [mapInsert, mapGet?, hk, hk', h, ih]

theorem mapInsert_mapInsert_self {κ ν : Type} [DecidableEq κ]
    (l : List (κ × ν)) (k : κ) (v w : ν) :
    mapInsert (mapInsert l k v) k w = mapInsert l k w := by
  induction l with
  | nil => simp [mapInsert]
  | cons hd tl ih =>
      obtain ⟨k₀, v₀⟩ := hd
      by_cases hk : k₀ = k <;> simp [mapInsert, hk, ih]

/-- Masking with a value below `2^k` makes a prior `% 2^k` truncation
irrelevant. -/
theorem land_mod_two_pow_of_lt (h m k : Nat) (hm : m < 2 ^ k) :
    (h % 2 ^ k) &&& m = h &&& m := by
  apply Nat.eq_of_testBit_eq
  intro i
  rw [Nat.testBit_land, Nat.testBit_land, Nat.testBit_mod_two_pow]
  rcases Nat.lt_or_ge i k with hik | hik
  · simp [hik]
  · have hmf : m.testBit i = false :=
      Nat.testBit_lt_two_pow (lt_of_lt_of_le hm (Nat.pow_le_pow_right (by norm_num) hik))
    simp [hmf, Nat.not_lt_of_ge hik]

/-- C2: for a sharder with `N` shards (a `u32`, `0 < N ≤ 2^32`) the shard
index of a channel equals `hash64(channel) & (N - 1)` — the `as u32`
truncation before the mask is irrelevant — and the shard name is a
function of the sharder's configuration and the channel alone: any two
sharder instances (in any two processes) built over the same
configuration map the same channel to the same shard, the hash being the
fixed-key SipHash-1-3 embedded above. -/
theorem shard_for_channel_deterministic_mask (s : TopicSharder) (c : ChannelId)
    (h0 : 0 < s.num_shards) (h32 : s.num_shards ≤ 4294967296) :
    s.compute_shard_index c = hash64 c &&& (s.num_shards - 1) ∧
    ∀ s' : TopicSharder, s'.num_shards = s.num_shards → s'.topicPrefix = s.topicPrefix →
      s'.get_shard_for_channel c = s.get_shard_for_channel c := by
  constructor
  · have e : (4294967296 : Nat) = 2 ^ 32 := by norm_num
    have hm : s.num_shards - 1 < 2 ^ 32 := by rw [← e]; omega
    unfold TopicSharder.compute_shard_index
    rw [e]
    exact land_mod_two_pow_of_lt (hash64 c) (s.num_shards - 1) 32 hm
  · intro s' hn hp
    simp [TopicSharder.get_shard_for_channel, TopicSharder.compute_shard_index, hn, hp]

/-- Witness for C2 at the default configuration (16 shards,
`chat.messages`) and the all-zero channel id. -/
theorem shard_for_channel_deterministic_mask_witness :
    (TopicSharder.mk 16 "chat.messages").compute_shard_index sampleChannelId =
      hash64 sampleChannelId &&& (16 - 1) ∧
    (TopicSharder.mk 16 "other").get_shard_for_channel sampleChannelId =
      (TopicSharder.mk 16 "other").get_shard_for_channel sampleChannelId :=
  ⟨(shard_for_channel_deterministic_mask (TopicSharder.mk 16 "chat.messages") sampleChannelId
      (by norm_num) (by norm_num)).1,
   (shard_for_channel_deterministic_mask (TopicSharder.mk 16 "other") sampleChannelId
      (by norm_num) (by norm_num)).2 (TopicSharder.mk 16 "other") rfl rfl⟩

/-- A pop count over enough bits is zero exactly for zero. -/
theorem countOnesAux_eq_zero_iff (fuel : Nat) : ∀ n : Nat, n < 2 ^ fuel →
    (countOnesAux fuel n = 0 ↔ n = 0) := by
  induction fuel with
  | zero =>
      intro n h
      have h0 : n = 0 := by simpa using Nat.lt_one_iff.mp (by simpa using h)
      simp [h0, countOnesAux]
  | succ f ih =>
      intro n h
      have hp : 2 ^ (f + 1) = 2 * 2 ^ f := by rw [pow_succ]; ring
      have hn2 : n / 2 < 2 ^ f := by omega
      have h2 := ih (n / 2) hn2
      simp only [countOnesAux]
      omega

/-- A pop count over enough bits is one exactly for the powers of two. -/
theorem countOnesAux_eq_one_iff (fuel : Nat) : ∀ n : Nat, n < 2 ^ fuel →
    (countOnesAux fuel n = 1 ↔ ∃ k, n = 2 ^ k) := by
  induction fuel with
  | zero =>
      intro n h
      have h0 : n = 0 := by simpa using Nat.lt_one_iff.mp (by simpa using h)
      subst h0
      simp only [countOnesAux]
      constructor
      · intro hc
        exact absurd hc (by omega)
      · rintro ⟨k, hk⟩
        exact absurd hk.symm (Nat.pos_iff_ne_zero.mp (Nat.pos_pow_of_pos k (by norm_num)))
  | succ f ih =>
      intro n h
      have hp : 2 ^ (f + 1) = 2 * 2 ^ f := by rw [pow_succ]; ring
      have hn2 : n / 2 < 2 ^ f := by omega
      have h1 := ih (n / 2) hn2
      have h0 := countOnesAux_eq_zero_iff f (n / 2) hn2
      simp only [countOnesAux]
      rcases Nat.mod_two_eq_zero_or_one n with hm | hm
      · rw [hm, Nat.zero_add, h1]
        constructor
        · rintro ⟨k, hk⟩
          refine ⟨k + 1, ?_⟩
          have hsq : 2 ^ (k + 1) = 2 * 2 ^ k := by rw [pow_succ]; ring
          omega
        · rintro ⟨k, hk⟩
          rcases k with _ | k'
          · simp only [pow_zero] at hk
            omega
          · refine ⟨k', ?_⟩
            have hsq : 2 ^ (k' + 1) = 2 * 2 ^ k' := by rw [pow_succ]; ring
            omega
      · rw [hm]
        constructor
        · intro hsum
          have hz : countOnesAux f (n / 2) = 0 := by omega
          have hz2 : n / 2 = 0 := h0.mp hz
          exact ⟨0, by simp only [pow_zero]; omega⟩
        · rintro ⟨k, hk⟩
          rcases k with _ | k'
          · simp only [pow_zero] at hk
            have hz2 : n / 2 = 0 := by omega
            have hz : countOnesAux f (n / 2) = 0 := h0.mpr hz2
            omega
          · have hsq : 2 ^ (k' + 1) = 2 * 2 ^ k' := by rw [pow_succ]; ring
            omega

/-- `u32::is_power_of_two` agrees with the mathematical notion on the
`u32` range. -/
theorem u32IsPowerOfTwo_iff (n : Nat) (h : n < 2 ^ 32) :
    u32IsPowerOfTwo n = true ↔ ∃ k, n = 2 ^ k := by
  unfold u32IsPowerOfTwo countOnes
  rw [beq_iff_eq]
  exact countOnesAux_eq_one_iff 32 n h

/-- C9: the sharder constructor rejects zero shards with `ZeroShards` for
every prefix; it rejects every positive `u32` shard count that is not a
power of two, for every prefix, with `NotPowerOfTwo`; it rejects the
empty prefix for every valid (positive power-of-two `u32`) count with
`EmptyTopicPrefix`; and `new(16, "chat.messages")` succeeds with
`get_all_shards` enumerating exactly `chat.messages.0` …
`chat.messages.15`, in order. -/
theorem topic_sharder_constructor_and_all_shards :
    (∀ tp : String, TopicSharder.new 0 tp = .error (.zeroShards 0)) ∧
    (∀ (n : Nat) (tp : String), 0 < n → n < 2 ^ 32 → (¬ ∃ k, n = 2 ^ k) →
      TopicSharder.new n tp = .error (.notPowerOfTwo n)) ∧
    (∀ n : Nat, 0 < n → n < 2 ^ 32 → (∃ k, n = 2 ^ k) →
      TopicSharder.new n "" = .error .emptyTopicPrefix) ∧
    TopicSharder.new 16 "chat.messages" = .ok ⟨16, "chat.messages"⟩ ∧
    (TopicSharder.mk 16 "chat.messages").get_all_shards =
      ["chat.messages.0", "chat.messages.1", "chat.messages.2", "chat.messages.3",
       "chat.messages.4", "chat.messages.5", "chat.messages.6", "chat.messages.7",
       "chat.messages.8", "chat.messages.9", "chat.messages.10", "chat.messages.11",
       "chat.messages.12", "chat.messages.13", "chat.messages.14", "chat.messages.15"] := by
  refine ⟨fun tp => rfl, ?_, ?_, rfl, rfl⟩
  · intro n tp hpos h32 hnp
    have hb : ¬ u32IsPowerOfTwo n = true :=
      fun hb => hnp ((u32IsPowerOfTwo_iff n h32).mp hb)
    unfold TopicSharder.new
    rw [if_neg (by omega : ¬ n = 0), if_pos hb]
  · intro n hpos h32 hp
    have hb : u32IsPowerOfTwo n = true := (u32IsPowerOfTwo_iff n h32).mpr hp
    unfold TopicSharder.new
    rw [if_neg (by omega : ¬ n = 0), if_neg (not_not_intro hb), if_pos rfl]

/-- Witness for C9, at the spec's own inputs: `new(0, "chat.messages")`,
`new(5, "chat.messages")` (5 is not a power of two) and `new(16, "")`
(16 = 2^4 is valid). -/
theorem topic_sharder_constructor_and_all_shards_witness :
    TopicSharder.new 0 "chat.messages" = .error (.zeroShards 0) ∧
    TopicSharder.new 5 "chat.messages" = .error (.notPowerOfTwo 5) ∧
    TopicSharder.new 16 "" = .error .emptyTopicPrefix :=
  ⟨topic_sharder_constructor_and_all_shards.1 "chat.messages",
   topic_sharder_constructor_and_all_shards.2.1 5 "chat.messages" (by norm_num) (by norm_num)
     (fun hp => absurd ((u32IsPowerOfTwo_iff 5 (by norm_num)).mpr hp) (by decide)),
   topic_sharder_constructor_and_all_shards.2.2.1 16 (by norm_num) (by norm_num)
     ⟨4, by norm_num⟩⟩

/-- C4 is false on the code: adding the same connection id twice (same
user, channel and queue) does not leave the registry unchanged —
`add_connection` pushes the id onto the channel's `Vec` unconditionally,
so `get_channel_connection_count` reports 2 after the double add where a
single add reports 1. -/
theorem add_connection_idempotence_cex :
    ((ConnectionRegistry.new.add_connection sampleUuid sampleUserId sampleChannelId 7).add_connection
        sampleUuid sampleUserId sampleChannelId 7) ≠
      ConnectionRegistry.new.add_connection sampleUuid sampleUserId sampleChannelId 7 ∧
    ((ConnectionRegistry.new.add_connection sampleUuid sampleUserId sampleChannelId 7).add_connection
        sampleUuid sampleUserId sampleChannelId 7).get_channel_connection_count sampleChannelId = 2 ∧
    (ConnectionRegistry.new.add_connection sampleUuid sampleUserId
        sampleChannelId 7).get_channel_connection_count sampleChannelId = 1 := by
  refine ⟨?_, rfl, rfl⟩
  intro h
  exact absurd (congrArg (fun r => r.get_channel_connection_count sampleChannelId) h) (by decide)

/-- C4 amended: `add` is idempotent on the `connections` map only —
re-inserting the same connection id overwrites the entry — but it appends
the id to the channel index unconditionally, so every call increments
`connectionsInChannel` of that channel by one (and leaves every other
channel's count unchanged); in particular adding the same connection id
twice makes the count for its channel 2, not 1. -/
theorem add_connection_overwrites_map_but_appends_index
    (r : ConnectionRegistry) (connection_id : Uuid) (user_id : UserId)
    (channel_id : ChannelId) (sender : Nat) :
    ((r.add_connection connection_id user_id channel_id sender).add_connection
        connection_id user_id channel_id sender).connections =
      (r.add_connection connection_id user_id channel_id sender).connections ∧
    ∀ ch : ChannelId,
      (r.add_connection connection_id user_id channel_id sender).get_channel_connection_count ch =
        if ch = channel_id then r.get_channel_connection_count ch + 1
        else r.get_channel_connection_count ch := by
  constructor
  · simp only [ConnectionRegistry.add_connection]
    exact mapInsert_mapInsert_self _ _ _ _
  · intro ch
    by_cases hch : ch = channel_id
    · subst hch
      simp only [ConnectionRegistry.add_connection, ConnectionRegistry.get_channel_connection_count]
      cases hl : mapGet? r.channel_connections ch with
      | some lst => simp [hl, mapGet?_mapInsert_self]
      | none => simp [hl, mapGet?_mapInsert_self]
    · simp only [ConnectionRegistry.add_connection, ConnectionRegistry.get_channel_connection_count]
      cases hl : mapGet? r.channel_connections channel_id with
      | some lst => simp [hl, mapGet?_mapInsert_ne _ _ _ _ hch, hch]
      | none => simp [hl, mapGet?_mapInsert_ne _ _ _ _ hch, hch]

/-- C3: for a received `MessageSent` event whose `channel_id` parses, if
the local registry reports zero connections for that channel the consumer
performs no enqueue at all; if it reports at least one connection and the
event's `message_id` and `user_id` parse, the consumer builds the
`NewMessage` server frame from the event's id, user id, content and
timestamp and hands it to `broadcast_to_channel` for that channel's local
connections. -/
theorem consumer_filters_by_local_connections (p : IdParsers) (registry : ConnectionRegistry)
    (event : MessageSentMessage) (cid : ChannelId)
    (hc : p.parseChannelId event.channel_id = .ok cid) :
    (registry.get_channel_connection_count cid = 0 →
      KafkaEventConsumer.broadcast_message p registry event = []) ∧
    (∀ mid uid, registry.get_channel_connection_count cid ≠ 0 →
      p.parseMessageId event.message_id = .ok mid →
      p.parseUserId event.user_id = .ok uid →
      KafkaEventConsumer.broadcast_message p registry event =
        registry.broadcast_to_channel cid
          (ServerMessage.newMessage mid uid event.content event.timestamp)) := by
  constructor
  · intro h0
    simp [KafkaEventConsumer.broadcast_message, hc, h0]
  · intro mid uid hne hm hu
    simp [KafkaEventConsumer.broadcast_message, hc, hm, hu, hne]

/-- Witness for C3: an empty registry drops the sample event; a registry
with one local connection for the channel broadcasts the `NewMessage`
frame to it (one enqueue onto queue 7). -/
theorem consumer_filters_by_local_connections_witness :
    KafkaEventConsumer.broadcast_message sampleIdParsers ConnectionRegistry.new sampleEvent = [] ∧
    KafkaEventConsumer.broadcast_message sampleIdParsers sampleRegistry1 sampleEvent =
      sampleRegistry1.broadcast_to_channel sampleChannelId
        (ServerMessage.newMessage sampleMessageId sampleUserId "hi" 0) :=
  ⟨(consumer_filters_by_local_connections sampleIdParsers ConnectionRegistry.new sampleEvent
      sampleChannelId rfl).1 rfl,
   (consumer_filters_by_local_connections sampleIdParsers sampleRegistry1 sampleEvent
      sampleChannelId rfl).2 sampleMessageId sampleUserId (by decide) rfl rfl⟩

/-- C1: `send_message` with a channel lookup that returns no channel fails
with `ChannelNotFound` and leaves the message store untouched; with an
existing channel and a successful store write it returns `Ok` with the
persisted message — now appended to the store — even when the subsequent
event publish fails (the publish outcome never reaches the result). -/
theorem send_message_channel_check_and_publish_failure
    (deps : SendDeps) (store : List Message) (channel_id : ChannelId) (user_id : UserId)
    (content : MessageContent) (newId : MessageId) (now : Timestamp) :
    (deps.findByIdResult = .ok none →
      MessageService.send_message deps store channel_id user_id content newId now =
        (.error (.channelNotFound channel_id), store)) ∧
    (∀ ch e, deps.findByIdResult = .ok (some ch) → deps.createFails = none →
      deps.publishResult = .error e →
      MessageService.send_message deps store channel_id user_id content newId now =
        (.ok ⟨newId, channel_id, user_id, content, now⟩,
         store ++ [⟨newId, channel_id, user_id, content, now⟩])) := by
  constructor
  · intro h
    simp [MessageService.send_message, h]
  · intro ch e hf hcr hp
    simp [MessageService.send_message, hf, hcr]

/-- Witness for C1: a missing channel yields `ChannelNotFound` with the
store unchanged; an existing channel with a failing publisher still
yields `Ok` and persists the message. -/
theorem send_message_channel_check_and_publish_failure_witness :
    MessageService.send_message ⟨.ok none, none, .ok ()⟩ [] sampleChannelId sampleUserId
        ⟨"hi"⟩ sampleMessageId 0 = (.error (.channelNotFound sampleChannelId), []) ∧
    MessageService.send_message ⟨.ok (some sampleChannel), none, .error "kafka unreachable"⟩ []
        sampleChannelId sampleUserId ⟨"hi"⟩ sampleMessageId 0 =
      (.ok ⟨sampleMessageId, sampleChannelId, sampleUserId, ⟨"hi"⟩, 0⟩,
       [⟨sampleMessageId, sampleChannelId, sampleUserId, ⟨"hi"⟩, 0⟩]) :=
  ⟨(send_message_channel_check_and_publish_failure ⟨.ok none, none, .ok ()⟩ [] sampleChannelId
      sampleUserId ⟨"hi"⟩ sampleMessageId 0).1 rfl,
   (send_message_channel_check_and_publish_failure
      ⟨.ok (some sampleChannel), none, .error "kafka unreachable"⟩ [] sampleChannelId
      sampleUserId ⟨"hi"⟩ sampleMessageId 0).2 sampleChannel "kafka unreachable" rfl rfl rfl⟩

/-- C7: applying a `UserUpdated` event (with a parseable user id and a
valid username) upserts the replica row with the event's username and
`updated_at`; when a prior row for that user exists its `created_at` is
preserved unchanged, and when none exists the handler stamps `created_at`
with the current instant and still succeeds. -/
theorem handle_user_updated_preserves_created_at
    (parseUserId : String → Except String UserId) (isAlnum : Char → Bool)
    (now : Timestamp) (repo : List (UserId × ReplicaUser)) (event : UserUpdatedEvent)
    (uid : UserId) (un : Username)
    (hid : parseUserId event.user_id = .ok uid)
    (hun : Username.new isAlnum event.username = .ok un) :
    (∀ prior, mapGet? repo uid = some prior →
      UserEventsConsumer.handle_user_updated parseUserId isAlnum now repo event =
        .ok (mapInsert repo uid ⟨uid, un, prior.created_at, event.updated_at⟩)) ∧
    (mapGet? repo uid = none →
      UserEventsConsumer.handle_user_updated parseUserId isAlnum now repo event =
        .ok (mapInsert repo uid ⟨uid, un, now, event.updated_at⟩)) := by
  constructor
  · intro prior hp
    simp [UserEventsConsumer.handle_user_updated, hid, hun, hp]
  · intro hp
    simp [UserEventsConsumer.handle_user_updated, hid, hun, hp]

/-- Witness for C7: with a prior row (created at 10) the update to
`alice2` keeps `created_at = 10`; with an empty replica the handler
succeeds and stamps `created_at` with the current instant 999. -/
theorem handle_user_updated_preserves_created_at_witness :
    UserEventsConsumer.handle_user_updated sampleParseUserId usernameCharTable 999
        [(sampleUserId, ⟨sampleUserId, ⟨"alice"⟩, 10, 20⟩)] sampleUserUpdatedEvent =
      .ok [(sampleUserId, ⟨sampleUserId, ⟨"alice2"⟩, 10, 200⟩)] ∧
    UserEventsConsumer.handle_user_updated sampleParseUserId usernameCharTable 999
        [] sampleUserUpdatedEvent =
      .ok [(sampleUserId, ⟨sampleUserId, ⟨"alice2"⟩, 999, 200⟩)] :=
  ⟨(handle_user_updated_preserves_created_at sampleParseUserId usernameCharTable 999
      [(sampleUserId, ⟨sampleUserId, ⟨"alice"⟩, 10, 20⟩)] sampleUserUpdatedEvent
      sampleUserId ⟨"alice2"⟩ rfl rfl).1 ⟨sampleUserId, ⟨"alice"⟩, 10, 20⟩ rfl,
   (handle_user_updated_preserves_created_at sampleParseUserId usernameCharTable 999
      [] sampleUserUpdatedEvent sampleUserId ⟨"alice2"⟩ rfl rfl).2 rfl⟩

/-- C6: the authenticate handler returns the same generic
`Unauthorized "Invalid credentials"` (status 401) both when the username
does not exist in the store (`NotFoundByUsername`) and when the user
exists but the password verifier reports a mismatch, so the two cases are
indistinguishable from the response. -/
theorem authenticate_generic_invalid_credentials
    (isAlnum : Char → Bool) (lookup : Username → Except UserError IsUser)
    (verify : String → String → Except String Bool) (secret : List Nat)
    (now hours : Int) (body : AuthenticateRequestBody) (username : Username)
    (hu : Username.new isAlnum body.username = .ok username) :
    (∀ s, lookup username = .error (.notFoundByUsername s) →
      authenticateHandler isAlnum lookup verify secret now hours body =
        .error (.unauthorized "Invalid credentials")) ∧
    (∀ user, lookup username = .ok user →
      verify body.password user.password_hash = .ok false →
      authenticateHandler isAlnum lookup verify secret now hours body =
        .error (.unauthorized "Invalid credentials")) ∧
    ApiError.status_code (.unauthorized "Invalid credentials") = 401 := by
  refine ⟨?_, ?_, rfl⟩
  · intro s hs
    simp [authenticateHandler, hu, hs]
  · intro user hU hv
    simp [authenticateHandler, hu, hU, Authenticator.authenticate, hv]

/-- Witness for C6: under the sample store (`alice` with stored hash
`stored-hash`), both `bob` (unknown) and `alice` with a wrong password
get `Unauthorized "Invalid credentials"`, which carries status 401. -/
theorem authenticate_generic_invalid_credentials_witness :
    authenticateHandler usernameCharTable sampleLookup sampleVerify [0] 0 24 ⟨"bob", "pw"⟩ =
      .error (.unauthorized "Invalid credentials") ∧
    authenticateHandler usernameCharTable sampleLookup sampleVerify [0] 0 24 ⟨"alice", "wrong"⟩ =
      .error (.unauthorized "Invalid credentials") ∧
    ApiError.status_code (.unauthorized "Invalid credentials") = 401 :=
  ⟨(authenticate_generic_invalid_credentials usernameCharTable sampleLookup sampleVerify [0]
      0 24 ⟨"bob", "pw"⟩ ⟨"bob"⟩ rfl).1 "bob" rfl,
   (authenticate_generic_invalid_credentials usernameCharTable sampleLookup sampleVerify [0]
      0 24 ⟨"alice", "wrong"⟩ ⟨"alice"⟩ rfl).2.1 sampleIsUser rfl rfl,
   rfl⟩

/-- C5 is false on the code as stated: `JwtHandler::decode` never adjusts
the `jsonwebtoken` default leeway of 60 seconds, so a token whose `exp`
lies in the past — here `exp = 999` decoded at `now = 1000` — does not
decode as `TokenExpired`; it decodes successfully. -/
theorem jwt_expired_within_leeway_cex :
    (999 : Int) < 1000 ∧
    JwtHandler.decode [0] 1000 (JwtHandler.encode [0] sampleClaimsExp999) =
      .ok sampleClaimsExp999 ∧
    JwtHandler.decode [0] 1000 (JwtHandler.encode [0] sampleClaimsExp999) ≠
      .error .tokenExpired := by
  refine ⟨by norm_num, rfl, ?_⟩
  intro h
  exact Except.noConfusion h

/-- C5 amended: under the same key, `decode(encode(claims))` returns the
claims whenever `exp` is absent or at least `now - 60` (the crate's
default leeway, which the handler keeps); decoding under a different key
fails with `DecodingFailed`; a token whose `exp` lies more than 60
seconds in the past decodes as `TokenExpired` (within the leeway it still
decodes, as the counterexample shows); a token with no `exp` decodes
successfully; and `decodeUnverified` returns the claims even under a
wrong key, subject to the same `exp` leeway check. -/
theorem jwt_token_roundtrip_amended (k1 k2 : List Nat) (c : Claims) (now : Int) :
    (∀ e, c.exp = some e → now - 60 ≤ e →
      JwtHandler.decode k1 now (JwtHandler.encode k1 c) = .ok c) ∧
    (c.exp = none → JwtHandler.decode k1 now (JwtHandler.encode k1 c) = .ok c) ∧
    (k2 ≠ k1 → JwtHandler.decode k2 now (JwtHandler.encode k1 c) =
      .error (.decodingFailed "InvalidSignature")) ∧
    (∀ e, c.exp = some e → e < now - 60 →
      JwtHandler.decode k1 now (JwtHandler.encode k1 c) = .error .tokenExpired) ∧
    (∀ e, c.exp = some e → now - 60 ≤ e →
      JwtHandler.decode_unverified k2 now (JwtHandler.encode k1 c) = .ok c) ∧
    (c.exp = none → JwtHandler.decode_unverified k2 now (JwtHandler.encode k1 c) = .ok c) := by
  refine ⟨?_, ?_, ?_, ?_, ?_, ?_⟩
  · intro e he hle
    simp [JwtHandler.decode, JwtHandler.encode, jsonwebtokenEncode, jsonwebtokenDecode,
      Validation.new, he, not_lt_of_ge hle]
  · intro he
    simp [JwtHandler.decode, JwtHandler.encode, jsonwebtokenEncode, jsonwebtokenDecode,
      Validation.new, he]
  · intro hk
    have hne : ((k1, c) : List Nat × Claims) ≠ (k2, c) := by
      intro h
      exact hk (congrArg Prod.fst h).symm
    simp [JwtHandler.decode, JwtHandler.encode, jsonwebtokenEncode, jsonwebtokenDecode,
      Validation.new, hne, JwtLibError.display]
  · intro e he hlt
    simp [JwtHandler.decode, JwtHandler.encode, jsonwebtokenEncode, jsonwebtokenDecode,
      Validation.new, he, hlt]
  · intro e he hle
    simp [JwtHandler.decode_unverified, JwtHandler.encode, jsonwebtokenEncode,
      jsonwebtokenDecode, Validation.new, he, not_lt_of_ge hle]
  · intro he
    simp [JwtHandler.decode_unverified, JwtHandler.encode, jsonwebtokenEncode,
      jsonwebtokenDecode, Validation.new, he]

/-- Witness for C5 (amended), at `now = 1000` with keys `[0]` and `[1]`:
round trip inside the leeway, round trip without `exp`, wrong-key
failure, expiry beyond the leeway, and unverified decode under the wrong
key. -/
theorem jwt_token_roundtrip_amended_witness :
    JwtHandler.decode [0] 1000 (JwtHandler.encode [0] sampleClaimsExp999) =
      .ok sampleClaimsExp999 ∧
    JwtHandler.decode [0] 1000 (JwtHandler.encode [0] Claims.empty) = .ok Claims.empty ∧
    JwtHandler.decode [1] 1000 (JwtHandler.encode [0] sampleClaimsExp999) =
      .error (.decodingFailed "InvalidSignature") ∧
    JwtHandler.decode [0] 1000 (JwtHandler.encode [0] sampleClaimsExp100) =
      .error .tokenExpired ∧
    JwtHandler.decode_unverified [1] 1000 (JwtHandler.encode [0] sampleClaimsExp999) =
      .ok sampleClaimsExp999 ∧
    JwtHandler.decode_unverified [1] 1000 (JwtHandler.encode [0] Claims.empty) =
      .ok Claims.empty :=
  ⟨(jwt_token_roundtrip_amended [0] [1] sampleClaimsExp999 1000).1 999 rfl (by norm_num),
   (jwt_token_roundtrip_amended [0] [1] Claims.empty 1000).2.1 rfl,
   (jwt_token_roundtrip_amended [0] [1] sampleClaimsExp999 1000).2.2.1 (by decide),
   (jwt_token_roundtrip_amended [0] [1] sampleClaimsExp100 1000).2.2.2.1 100 rfl (by norm_num),
   (jwt_token_roundtrip_amended [0] [1] sampleClaimsExp999 1000).2.2.2.2.1 999 rfl (by norm_num),
   (jwt_token_roundtrip_amended [0] [1] Claims.empty 1000).2.2.2.2.2 rfl⟩

/-- C8 is false on the code as stated: the length checks use the UTF-8
byte length (`String::len`), not code points.  `"éé"` has 2 code points —
fewer than 3, so the claim demands `TooShort` — but 4 bytes, and both
characters are Unicode-alphanumeric, so construction succeeds.  Dually,
17 `é`s are 17 code points — in the claimed range — but 34 bytes, and
construction fails with `TooLong` reporting 34. -/
theorem username_code_points_cex :
    "éé".length = 2 ∧
    Username.new usernameCharTable "éé" = .ok ⟨"éé"⟩ ∧
    Username.new usernameCharTable "éé" ≠ .error (.tooShort 3 2) ∧
    "ééééééééééééééééé".length = 17 ∧
    Username.new usernameCharTable "ééééééééééééééééé" = .error (.tooLong 32 34) := by
  refine ⟨rfl, rfl, ?_, rfl, rfl⟩
  intro h
  exact Except.noConfusion h

/-- Reduction of `Username::new` to its decision tree. -/
theorem username_new_eq (isAlnum : Char → Bool) (s : String) :
    Username.new isAlnum s =
      if s.utf8ByteSize < 3 then .error (.tooShort 3 s.utf8ByteSize)
      else if 32 < s.utf8ByteSize then .error (.tooLong 32 s.utf8ByteSize)
      else if s.toList.all (fun c => isAlnum c || c = '_' || c = '-') then .ok ⟨s⟩
      else .error .invalidCharacters := by
  unfold Username.new Username.with_valid_length Username.with_valid_chars
    usernameMinLength usernameMaxLength
  by_cases h1 : s.utf8ByteSize < 3
  · simp [h1, Bind.bind, Except.bind]
  · by_cases h2 : 32 < s.utf8ByteSize
    · simp [h1, h2, Bind.bind, Except.bind]
    · simp only [if_neg h1, if_neg h2, Bind.bind, Except.bind]
      by_cases hx : (s.toList.all fun c => isAlnum c || c = '_' || c = '-') = true
      · rw [if_pos hx, if_pos hx]
        rfl
      · rw [if_neg hx, if_neg hx]

/-- C8 amended: `Username` construction succeeds exactly when the UTF-8
byte length of the raw string is between 3 and 32 and every character
passes the alphanumeric/`_`/`-` test; fewer than 3 bytes yields
`TooShort`, more than 32 bytes yields `TooLong` (both reporting byte
counts), and an in-byte-range string with an invalid character yields
`InvalidCharacters`.  Stated for every character classifier `isAlnum`,
hence in particular for `char::is_alphanumeric`. -/
theorem username_validation_byte_lengths (isAlnum : Char → Bool) (s : String) :
    (s.utf8ByteSize < 3 → Username.new isAlnum s = .error (.tooShort 3 s.utf8ByteSize)) ∧
    (32 < s.utf8ByteSize → Username.new isAlnum s = .error (.tooLong 32 s.utf8ByteSize)) ∧
    (3 ≤ s.utf8ByteSize → s.utf8ByteSize ≤ 32 →
      s.toList.all (fun c => isAlnum c || c = '_' || c = '-') = true →
      Username.new isAlnum s = .ok ⟨s⟩) ∧
    (3 ≤ s.utf8ByteSize → s.utf8ByteSize ≤ 32 →
      s.toList.all (fun c => isAlnum c || c = '_' || c = '-') = false →
      Username.new isAlnum s = .error .invalidCharacters) := by
  rw [username_new_eq]
  refine ⟨?_, ?_, ?_, ?_⟩
  · intro h
    simp [h]
  · intro h
    have hn3 : ¬ s.utf8ByteSize < 3 := by omega
    simp [hn3, h]
  · intro h3 h32 hch
    have hn3 : ¬ s.utf8ByteSize < 3 := by omega
    have hn32 : ¬ 32 < s.utf8ByteSize := by omega
    rw [if_neg hn3, if_neg hn32, if_pos hch]
  · intro h3 h32 hch
    have hn3 : ¬ s.utf8ByteSize < 3 := by omega
    have hn32 : ¬ 32 < s.utf8ByteSize := by omega
    have hb : ¬ (s.toList.all fun c => isAlnum c || c = '_' || c = '-') = true := by
      rw [hch]
      exact Bool.false_ne_true
    rw [if_neg hn3, if_neg hn32, if_neg hb]

/-- Witness for C8 (amended), at the spec's own test inputs plus the
maximal in-range string: `"ab"` is too short, 33 `a`s are too long,
`"abc"` is accepted, `"a b"` has an invalid character. -/
theorem username_validation_byte_lengths_witness :
    Username.new usernameCharTable "ab" = .error (.tooShort 3 2) ∧
    Username.new usernameCharTable "aaaaaaaaaaaaaaaaaaaaaaaaaaaaaaaaa" =
      .error (.tooLong 32 33) ∧
    Username.new usernameCharTable "abc" = .ok ⟨"abc"⟩ ∧
    Username.new usernameCharTable "a b" = .error .invalidCharacters :=
  ⟨(username_validation_byte_lengths usernameCharTable "ab").1 (by decide),
   (username_validation_byte_lengths usernameCharTable "aaaaaaaaaaaaaaaaaaaaaaaaaaaaaaaaa").2.1
     (by decide),
   (username_validation_byte_lengths usernameCharTable "abc").2.2.1 (by decide) (by decide)
     (by decide),
   (username_validation_byte_lengths usernameCharTable "a b").2.2.2 (by decide) (by decide)
     (by decide)⟩

/-- C10: when the `before` query parameter is present but the RFC 3339
parse returns no timestamp, the handler ignores it silently: the request
is served exactly as if `before` had been omitted, for any limit. -/
theorem malformed_before_param_ignored
    (parseChannelId : String → Except String ChannelId)
    (parseRfc3339 : String → Option Timestamp)
    (svc : ChannelId → Int → Option Timestamp → Except MessageError (List Message))
    (channel_id : String) (limit : Option Int) (s : String)
    (h : parseRfc3339 s = none) :
    getChannelMessagesHandler parseChannelId parseRfc3339 svc channel_id ⟨limit, some s⟩ =
      getChannelMessagesHandler parseChannelId parseRfc3339 svc channel_id ⟨limit, none⟩ := by
  unfold getChannelMessagesHandler
  cases parseChannelId channel_id with
  | error e => rfl
  | ok cid => simp [h]

/-- Witness for C10: a malformed `before` value is served exactly like an
absent one. -/
theorem malformed_before_param_ignored_witness :
    getChannelMessagesHandler sampleIdParsers.parseChannelId sampleRfc3339 sampleMessageSvc
        sampleUuidString ⟨some 3, some "not-a-date"⟩ =
      getChannelMessagesHandler sampleIdParsers.parseChannelId sampleRfc3339 sampleMessageSvc
        sampleUuidString ⟨some 3, none⟩ :=
  malformed_before_param_ignored sampleIdParsers.parseChannelId sampleRfc3339 sampleMessageSvc
    sampleUuidString (some 3) "not-a-date" rfl

end ChatRs
